import Mathlib

/-!
Verification development for a multi-tenant RAG chatbot codebase
(Next.js + PostgreSQL/pgvector + Gemini).

The embedding models, from the source:
  * `src/lib/database.ts` — the `Website`/`Document` rows and
    `db.documents.similaritySearch` (SQL filter / order / limit semantics).
  * `src/lib/rag.ts` — `retrieveRelevantDocuments`, `generateRAGResponse`,
    `createEmbedding`, `createEmbeddingsBatch`.
  * `src/lib/crawler.ts` — `WebsiteCrawler.crawlUrl`, `shouldCrawlUrl`,
    `isInternalLink`, `startCrawl`.
  * `src/app/api/chat/route.ts` — the HTTP `POST` chat handler.

External collaborators (the pgvector `<=>` cosine-distance operator, the
headless browser page fetch + cheerio text extraction, the langchain
`RecursiveCharacterTextSplitter`, WHATWG URL parsing, and the Gemini
embedding/completion API) are modelled as explicit function parameters:
the claims under verification are about the control flow, filtering,
ordering and error handling of the core, not about those collaborators.
Fallible collaborator calls are modelled with `Except`/`Option`; a
caught JS exception corresponds to matching on the `error`/`none` case.
-/

/-- Crawl status of a tenant (`websites.crawl_status` in `database.ts`). -/
inductive CrawlStatus where
  | pending
  | crawling
  | completed
  | failed
deriving DecidableEq, Repr

/-- A `websites` row (`Website` in `database.ts`).  The `Date` columns and
the free-form JSON `settings` blob are omitted: no claim touches them. -/
structure Website where
  id : String
  domain : String
  name : String
  api_key : String
  crawl_status : CrawlStatus
  is_active : Bool
deriving DecidableEq, Repr

/-- A `documents` row (`Document` in `database.ts`).  The embedding vector
is a list of rationals; the `Date` columns and JSON metadata are omitted. -/
structure Document where
  id : String
  website_id : String
  content : String
  url : String
  title : Option String
  embedding : List ℚ
deriving DecidableEq, Repr

/-- Insertion step for `ORDER BY embedding <=> $2` (ascending distance). -/
def insertByDist (key : Document → ℚ) (d : Document) : List Document → List Document
  | [] => [d]
  | e :: es => if key d ≤ key e then d :: e :: es else e :: insertByDist key d es

/-- Insertion sort by ascending distance, modelling the SQL `ORDER BY`. -/
def sortByDist (key : Document → ℚ) : List Document → List Document
  | [] => []
  | d :: ds => insertByDist key d (sortByDist key ds)

/-- `db.documents.similaritySearch` (`database.ts`): the SQL
`SELECT *, (1 - (embedding <=> $2)) as similarity FROM documents
 WHERE website_id = $1 AND (1 - (embedding <=> $2)) > $3
 ORDER BY embedding <=> $2 LIMIT $4`
over a table of rows.  `dist` stands for the pgvector `<=>` cosine-distance
operator (a collaborator: its numeric value is irrational in general, so it
is kept abstract; every claim here holds for an arbitrary distance). -/
def similaritySearch (dist : List ℚ → List ℚ → ℚ) (table : List Document)
    (websiteId : String) (embedding : List ℚ) (limit : Nat) (threshold : ℚ) :
    List Document :=
  (sortByDist (fun d => dist d.embedding embedding)
    (table.filter (fun d =>
      d.website_id == websiteId &&
      decide (1 - dist d.embedding embedding > threshold)))).take limit

/-- The result record of `retrieveRelevantDocuments` (`RAGContext` in `rag.ts`). -/
structure RAGContext where
  documents : List Document
  totalSources : Nat
  similarity_threshold : ℚ
deriving DecidableEq, Repr

/-- The two recognized options of `retrieveRelevantDocuments`
(`{limit?: number; threshold?: number}`). -/
structure RetrieveOptions where
  limit : Option Nat
  threshold : Option ℚ
deriving DecidableEq, Repr

/-- `const { limit = 5 } = options` in `retrieveRelevantDocuments`. -/
def retrieveLimit (o : RetrieveOptions) : Nat := o.limit.getD 5

/-- `const { threshold = 0.7 } = options` in `retrieveRelevantDocuments`. -/
def retrieveThreshold (o : RetrieveOptions) : ℚ := o.threshold.getD (7/10)

/-- The `try` block of `retrieveRelevantDocuments` (`rag.ts`): embed the
query (`embeddingModel.embedContent`, a collaborator that may throw),
reject a missing/empty embedding by throwing, then delegate to
`similaritySearch`.  `Except.error` is a thrown JS exception. -/
def retrieveBody (embed : String → Except String (List ℚ))
    (dist : List ℚ → List ℚ → ℚ) (table : List Document)
    (query websiteId : String) (opts : RetrieveOptions) :
    Except String RAGContext :=
  match embed query with
  | Except.error e => Except.error e
  | Except.ok values =>
    if values.length = 0 then
      Except.error "Failed to generate query embedding"
    else
      let documents := similaritySearch dist table websiteId values
        (retrieveLimit opts) (retrieveThreshold opts)
      Except.ok
        { documents := documents
          totalSources := documents.length
          similarity_threshold := retrieveThreshold opts }

/-- `retrieveRelevantDocuments` (`rag.ts`): the `try`/`catch` wrapper.  Any
failure inside the body is caught and converted into the empty context; the
total return type records that no exception escapes to the caller. -/
def retrieveRelevantDocuments (embed : String → Except String (List ℚ))
    (dist : List ℚ → List ℚ → ℚ) (table : List Document)
    (query websiteId : String) (opts : RetrieveOptions) : RAGContext :=
  match retrieveBody embed dist table query websiteId opts with
  | Except.ok ctx => ctx
  | Except.error _ =>
    { documents := []
      totalSources := 0
      similarity_threshold := retrieveThreshold opts }

/-- A history turn handed to `generateRAGResponse`
(`{role: 'user' | 'assistant'; content: string}`). -/
inductive ChatRole where
  | user
  | assistant
deriving DecidableEq, Repr

/-- One element of the `chatHistory` argument of `generateRAGResponse`. -/
structure HistoryMsg where
  role : ChatRole
  content : String
deriving DecidableEq, Repr

/-- The recognized options of `generateRAGResponse`
(`{limit?; threshold?; includeContext?}`). -/
structure GenerateOptions where
  limit : Option Nat
  threshold : Option ℚ
  includeContext : Option Bool
deriving DecidableEq, Repr

/-- `const { includeContext = true } = options` in `generateRAGResponse`. -/
def generateIncludeContext (o : GenerateOptions) : Bool := o.includeContext.getD true

/-- `generateRAGResponse` forwards its whole options object to
`retrieveRelevantDocuments`, which destructures only `limit`/`threshold`. -/
def forwardedOptions (o : GenerateOptions) : RetrieveOptions :=
  { limit := o.limit, threshold := o.threshold }

/-- The context block of the prompt: `context.documents.map((doc, index) =>
"Source INDEX+1 (URL):\nCONTENT").join('\n\n')` in `generateRAGResponse`. -/
def buildContextText (docs : List Document) : String :=
  String.intercalate "\n\n"
    (docs.enum.map (fun p =>
      "Source " ++ toString (p.1 + 1) ++ " (" ++ p.2.url ++ "):\n" ++ p.2.content))

/-- Rendering of one history turn:
"User: ..." / "Assistant: ..." in `generateRAGResponse`. -/
def renderHistoryMsg (m : HistoryMsg) : String :=
  (match m.role with
   | ChatRole.user => "User: "
   | ChatRole.assistant => "Assistant: ") ++ m.content

/-- The history block: `chatHistory.slice(-10).map(...).join('\n')` —
the last ten turns, each labelled by role. -/
def buildHistoryText (history : List HistoryMsg) : String :=
  String.intercalate "\n"
    ((history.drop (history.length - 10)).map renderHistoryMsg)

/-- The grounded prompt template of `generateRAGResponse` (the template
literal spanning lines 352-368 of `rag.ts`), with the conditional
`historyText ? ... : ''` interpolation. -/
def buildPrompt (contextText historyText query : String) : String :=
  "You are a helpful AI assistant for this website. Use the provided context to answer the user\x27s question accurately and helpfully.\n\nContext from the website:\n"
  ++ contextText ++ "\n\n"
  ++ (if historyText = "" then "" else "Previous conversation:\n" ++ historyText ++ "\n")
  ++ "\n\nCurrent question: " ++ query
  ++ "\n\nInstructions:\n- Answer based primarily on the provided context\n- If the context doesn\x27t contain relevant information, politely say so\n- Be conversational and helpful\n- Keep responses concise but informative\n- Reference specific sources when relevant\n\nAnswer:"

/-- First-occurrence de-duplication, the semantics of
`[...new Set(xs)]` over the source URLs in `generateRAGResponse`. -/
def jsSetDedup : List String → List String
  | [] => []
  | x :: xs => x :: jsSetDedup (xs.filter (fun y => y != x))
termination_by l => l.length
decreasing_by
  simp only [List.length_cons]
  exact Nat.lt_succ_of_le (xs.length_filter_le _)

/-- The result record of `generateRAGResponse` (`RAGResponse` in `rag.ts`). -/
structure RAGResponse where
  answer : String
  context : RAGContext
  sources : List String
deriving DecidableEq, Repr

/-- The fallback answer of `generateRAGResponse`'s `catch` branch. -/
def ragFallbackAnswer : String :=
  "I\x27m sorry, I encountered an error while processing your question. Please try again."

/-- The `try` block of `generateRAGResponse` (`rag.ts`): retrieval (which
catches its own failures), prompt assembly, the completion call
(`chatModel.generateContent`, a collaborator that may throw), and source
URL de-duplication.  Zeroes out the returned context when
`includeContext` is false. -/
def generateBody (embed : String → Except String (List ℚ))
    (dist : List ℚ → List ℚ → ℚ) (chat : String → Except String String)
    (table : List Document) (query websiteId : String)
    (history : List HistoryMsg) (opts : GenerateOptions) :
    Except String RAGResponse :=
  let context := retrieveRelevantDocuments embed dist table query websiteId
    (forwardedOptions opts)
  let contextText := buildContextText context.documents
  let historyText := buildHistoryText history
  match chat (buildPrompt contextText historyText query) with
  | Except.error e => Except.error e
  | Except.ok answer =>
    Except.ok
      { answer := answer
        context := if generateIncludeContext opts then context else
          { documents := [], totalSources := 0, similarity_threshold := 0 }
        sources := jsSetDedup (context.documents.map (fun d => d.url)) }

/-- `generateRAGResponse` (`rag.ts`): the `try`/`catch` wrapper.  Any
failure is caught and converted into the fallback answer with empty
context and sources; the total return type records that no exception
escapes to the caller. -/
def generateRAGResponse (embed : String → Except String (List ℚ))
    (dist : List ℚ → List ℚ → ℚ) (chat : String → Except String String)
    (table : List Document) (query websiteId : String)
    (history : List HistoryMsg) (opts : GenerateOptions) : RAGResponse :=
  match generateBody embed dist chat table query websiteId history opts with
  | Except.ok r => r
  | Except.error _ =>
    { answer := ragFallbackAnswer
      context := { documents := [], totalSources := 0, similarity_threshold := 0 }
      sources := [] }

/-- `createEmbedding` (`rag.ts`): one provider call; a thrown error or a
missing `values` field becomes the empty vector (`catch` + `|| []`). -/
def createEmbedding (embed : String → Except String (List ℚ)) (text : String) :
    List ℚ :=
  match embed text with
  | Except.ok v => v
  | Except.error _ => []

/-- `createEmbeddingsBatch` (`rag.ts`): the loop
`for (i = 0; i < texts.length; i += 5)` taking `texts.slice(i, i + 5)`,
mapping `createEmbedding` over the sub-batch and appending the results.
The inter-batch `setTimeout` delay is real time, outside this model. -/
def createEmbeddingsBatch (embed : String → Except String (List ℚ)) :
    List String → List (List ℚ)
  | [] => []
  | t :: ts =>
    ((t :: ts).take 5).map (createEmbedding embed)
      ++ createEmbeddingsBatch embed ((t :: ts).drop 5)
termination_by ts => ts.length
decreasing_by
  simp only [List.drop_succ_cons, List.length_cons]
  exact Nat.lt_succ_of_le (by rw [List.length_drop]; exact Nat.sub_le _ _)

/-- Whether `pat` occurs at the head of `l` (helper for the semantics of
JS `String.prototype.includes`). -/
def isSubAt : List Char → List Char → Bool
  | [], _ => true
  | _ :: _, [] => false
  | p :: ps, c :: cs => p == c && isSubAt ps cs

/-- Whether `pat` occurs anywhere in `l` (helper for JS `includes`). -/
def hasSub (pat : List Char) : List Char → Bool
  | [] => isSubAt pat []
  | c :: cs => isSubAt pat (c :: cs) || hasSub pat cs

/-- JS `s.includes(pat)`: substring containment. -/
def jsIncludes (s pat : String) : Bool := hasSub pat.data s.data

/-- The recognized crawl options (`CrawlOptions` in `crawler.ts`); every
field is optional in the source. -/
structure CrawlOptions where
  maxPages : Option Nat
  maxDepth : Option Nat
  respectRobotsTxt : Option Bool
  delayBetweenRequests : Option Nat
  excludePatterns : Option (List String)
  includePatterns : Option (List String)
deriving DecidableEq, Repr

/-- The default `excludePatterns` of the `WebsiteCrawler` constructor. -/
def defaultExcludePatterns : List String :=
  ["/admin", "/wp-admin", "/login", "/checkout", "/cart",
   ".pdf", ".jpg", ".png", ".gif", ".zip", ".exe"]

/-- `this.options.maxPages` after the constructor default spread (50). -/
def maxPagesOf (o : CrawlOptions) : Nat := o.maxPages.getD 50

/-- `this.options.maxDepth` after the constructor default spread (3). -/
def maxDepthOf (o : CrawlOptions) : Nat := o.maxDepth.getD 3

/-- `this.options.excludePatterns` after the constructor default spread. -/
def excludePatternsOf (o : CrawlOptions) : List String :=
  o.excludePatterns.getD defaultExcludePatterns

/-- `this.options.includePatterns` after the constructor default spread. -/
def includePatternsOf (o : CrawlOptions) : List String :=
  o.includePatterns.getD []

/-- `WebsiteCrawler.shouldCrawlUrl`: reject a URL containing an exclude
pattern (case-insensitively); if include patterns exist, require at least
one of them to occur; otherwise accept. -/
def shouldCrawlUrl (o : CrawlOptions) (url : String) : Bool :=
  if (excludePatternsOf o).any (fun p => jsIncludes url.toLower p.toLower) then
    false
  else if includePatternsOf o ≠ [] then
    (includePatternsOf o).any (fun p => jsIncludes url.toLower p.toLower)
  else
    true

/-- What the headless browser delivers for one fetched page: the title,
the cleaned text (after cheerio element-stripping, content-selector
choice and whitespace collapse — all external HTML processing), and the
`href` values of the page's `a[href]` anchors. -/
structure Page where
  title : String
  text : String
  links : List String
deriving DecidableEq, Repr

/-- The crawler's external collaborators: `web` is the puppeteer
navigation + extraction (`none` = a thrown navigation error), `splitText`
is the langchain `RecursiveCharacterTextSplitter(1000, 200)`, and `hostOf`
is `new URL(u).hostname` (`none` = a URL parse failure, thrown and caught
in `isInternalLink`). -/
structure CrawlEnv where
  web : String → Option Page
  splitText : String → List String
  hostOf : String → Option String

/-- A pending document chunk pushed into `documentsToCreate` by
`crawlUrl` (a `Partial<Document>` with its metadata flattened; the
`crawl_timestamp` metadata field is real time, outside this model). -/
structure PendingDoc where
  website_id : String
  content : String
  url : String
  title : String
  source_domain : String
  chunk_index : Nat
  total_chunks : Nat
deriving DecidableEq, Repr

/-- The chunk-production step of `crawlUrl` (`crawler.ts` lines 180-206):
text of length strictly greater than 100 is split by the text splitter and
one pending document is pushed per chunk, carrying its index and the total
chunk count; any other page yields nothing. -/
def pageDocs (splitText : String → List String) (website : Website)
    (url : String) (pg : Page) : List PendingDoc :=
  if pg.text.length > 100 then
    let chunks := splitText pg.text
    chunks.enum.map (fun p =>
      { website_id := website.id
        content := p.2
        url := url
        title := pg.title
        source_domain := website.domain
        chunk_index := p.1
        total_chunks := chunks.length })
  else []

/-- The `$$eval('a[href]', ...)` filter of `crawlUrl`: drop falsy, `mailto:`
and `tel:` hrefs. -/
def pageLinks (pg : Page) : List String :=
  pg.links.filter (fun h =>
    h != "" && !h.startsWith "mailto:" && !h.startsWith "tel:")

/-- `WebsiteCrawler.isInternalLink`: both the link and the tenant domain
must parse and have equal hostnames; a parse failure (caught exception)
makes the link external. -/
def isInternalLink (env : CrawlEnv) (website : Website) (url : String) : Bool :=
  match env.hostOf url, env.hostOf website.domain with
  | some a, some b => a == b
  | _, _ => false

/-- The in-domain links of a page, in page order:
`links.filter(link => this.isInternalLink(link))` in `crawlUrl`. -/
def internalLinks (env : CrawlEnv) (website : Website) (pg : Page) : List String :=
  (pageLinks pg).filter (fun l => isInternalLink env website l)

/-- The crawler's mutable per-crawl state: `visitedUrls` (a `Set`, modelled
as a list extended only under a membership guard), `errors`, and the
accumulated `documentsToCreate`. -/
structure CrawlerState where
  visitedUrls : List String
  errors : List String
  docs : List PendingDoc
deriving DecidableEq, Repr

/-- `WebsiteCrawler.crawlUrl` (`crawler.ts` lines 114-231), with an
explicit recursion fuel: the caller `crawl()` supplies fuel
`maxDepth + 1`, and since every recursive call increases `depth` by one
and recursion is guarded by `depth < maxDepth`, the fuel-exhausted branch
is unreachable from the top-level call.  Per the source: return when the
depth cap, visited-count cap or visited-set guard fires; return when the
URL fails the pattern test; otherwise mark visited, fetch (a navigation
failure is caught and recorded as an error string), push one pending
document per chunk, and recurse over the first ten in-domain links. -/
def crawlUrl (env : CrawlEnv) (o : CrawlOptions) (website : Website) :
    Nat → String → Nat → CrawlerState → CrawlerState
  | 0, _, _, st => st
  | Nat.succ fuel, url, depth, st =>
    if depth > maxDepthOf o ∨ st.visitedUrls.length ≥ maxPagesOf o ∨
        url ∈ st.visitedUrls then
      st
    else if shouldCrawlUrl o url = false then
      st
    else
      match env.web url with
      | none =>
        { st with visitedUrls := st.visitedUrls ++ [url],
                  errors := st.errors ++ ["Error crawling " ++ url] }
      | some pg =>
        if depth < maxDepthOf o then
          ((internalLinks env website pg).take 10).foldl
            (fun s l => crawlUrl env o website fuel l (depth + 1) s)
            { st with visitedUrls := st.visitedUrls ++ [url],
                      docs := st.docs ++ pageDocs env.splitText website url pg }
        else
          { st with visitedUrls := st.visitedUrls ++ [url],
                    docs := st.docs ++ pageDocs env.splitText website url pg }

/-- `db.websites.findByApiKey` (`database.ts`): the first row with the
given `api_key` and `is_active = true`. -/
def findByApiKey (websites : List Website) (key : String) : Option Website :=
  websites.find? (fun w => w.api_key == key && w.is_active)

/-- The result object of `startCrawl` (`crawler.ts`). -/
structure StartCrawlResult where
  success : Bool
  message : String
  jobId : Option String
deriving DecidableEq, Repr

/-- The observable outcome of the synchronous part of `startCrawl`: the
returned result, the websites table as left behind, and the background
crawl job scheduled via `setTimeout` (`none` = no crawl dispatched, so no
`WebsiteCrawler` is constructed and no existing crawl's `visitedUrls` is
touched). -/
structure StartCrawlOutcome where
  result : StartCrawlResult
  websites : List Website
  scheduled : Option String
deriving DecidableEq, Repr

/-- `startCrawl` (`crawler.ts` lines 320-362): reject an unknown tenant;
reject a tenant whose `crawl_status` is already `crawling`; otherwise mint
a job id and schedule the background crawl.  The synchronous part mutates
no state in any branch. -/
def startCrawl (websites : List Website) (websiteId : String) (now : Nat) :
    StartCrawlOutcome :=
  match findByApiKey websites websiteId with
  | none =>
    { result := { success := false, message := "Website not found", jobId := none }
      websites := websites
      scheduled := none }
  | some w =>
    if w.crawl_status = CrawlStatus.crawling then
      { result :=
          { success := false
            message := "Website is already being crawled"
            jobId := none }
        websites := websites
        scheduled := none }
    else
      let jobId := "crawl-" ++ w.id ++ "-" ++ toString now
      { result :=
          { success := true, message := "Crawl started successfully", jobId := some jobId }
        websites := websites
        scheduled := some jobId }

/-- A JSON value, for stating the exact shape of the chat route's
`Response.json(...)` payloads. -/
inductive JsonVal where
  | str (s : String)
  | num (n : Int)
  | jbool (b : Bool)
  | arr (xs : List JsonVal)
  | obj (fields : List (String × JsonVal))

/-- Field lookup in a JSON object (the first binding wins, as in a JS
object literal without duplicate keys). -/
def JsonVal.getField : JsonVal → String → Option JsonVal
  | JsonVal.obj fs, k => (fs.find? (fun f => f.1 == k)).map (fun f => f.2)
  | _, _ => none

/-- The Indonesian fallback answer of `generateGeminiResponse`
(`route.ts`). -/
def geminiFallback : String :=
  "Maaf, saya tidak dapat memproses permintaan Anda saat ini. Silakan coba lagi."

/-- The prompt template of `generateGeminiResponse` (`route.ts`). -/
def geminiPrompt (message : String) : String :=
  "Anda adalah asisten AI yang membantu menjawab pertanyaan dalam bahasa Indonesia. \nBerikan jawaban yang informatif, ramah, dan natural.\n\nPertanyaan: "
  ++ message ++ "\n\nJawaban:"

/-- `generateGeminiResponse` (`route.ts`): a missing API key, a failed
fetch, or a malformed candidates payload all fall into the `catch` branch
and yield the fallback string.  `callGemini` models the fetch + candidate
extraction (a collaborator). -/
def generateGeminiResponse (apiKey : Option String)
    (callGemini : String → Except String String) (message : String) : String :=
  match apiKey with
  | none => geminiFallback
  | some _ =>
    match callGemini (geminiPrompt message) with
    | Except.ok text => text
    | Except.error _ => geminiFallback

/-- The parsed JSON body of a chat `POST` request
(`{message, websiteId, sessionId}`; each may be absent). -/
structure ChatRequestBody where
  message : Option String
  websiteId : Option String
  sessionId : Option String
deriving DecidableEq, Repr

/-- The `metadata` object of the chat `POST` success response
(`route.ts` lines 98-103). -/
def chatMetadataObj : JsonVal :=
  JsonVal.obj
    [("aiModel", JsonVal.str "Google Gemini 1.5 Flash"),
     ("productionMode", JsonVal.jbool true),
     ("hasDatabase", JsonVal.jbool false),
     ("version", JsonVal.str "2.0")]

/-- The HTTP `POST` handler of `src/app/api/chat/route.ts` (status code
and JSON payload).  `body = none` models a `request.json()` parse failure
(caught by the outer `try`, giving the 500 branch).  A missing message
— and, by JS falsiness, an empty one — is rejected with 400.  `now`
models `Date.now()`, and the JS falsy check on `sessionId` makes an
empty-string session id fall back to the generated one. -/
def chatPOST (apiKey : Option String) (callGemini : String → Except String String)
    (now : Nat) (body : Option ChatRequestBody) : Nat × JsonVal :=
  match body with
  | none =>
    (500, JsonVal.obj
      [("content", JsonVal.str
          "Maaf, terjadi kesalahan sistem. Silakan coba lagi dalam beberapa saat."),
       ("type", JsonVal.str "error"),
       ("timestamp", JsonVal.num now)])
  | some b =>
    match b.message with
    | none => (400, JsonVal.obj [("error", JsonVal.str "Message is required")])
    | some msg =>
      if msg = "" then
        (400, JsonVal.obj [("error", JsonVal.str "Message is required")])
      else
        let content := generateGeminiResponse apiKey callGemini msg
        let sessionId :=
          match b.sessionId with
          | some s => if s = "" then "prod-session-" ++ toString now else s
          | none => "prod-session-" ++ toString now
        (200, JsonVal.obj
          [("type", JsonVal.str "response"),
           ("content", JsonVal.str content),
           ("sessionId", JsonVal.str sessionId),
           ("timestamp", JsonVal.num now),
           ("metadata", chatMetadataObj)])

/-- A degenerate distance operator (constant zero), used to instantiate
theorems on concrete inputs. -/
def distZero : List ℚ → List ℚ → ℚ := fun _ _ => 0

/-- A concrete stored chunk of tenant "T". -/
def docT : Document :=
  { id := "d1", website_id := "T", content := "hello",
    url := "http://example.com/a", title := none, embedding := [] }

/-- An embedding provider that always throws. -/
def embedFail : String → Except String (List ℚ) := fun _ => Except.error "provider down"

/-- A completion provider that always throws. -/
def chatFail : String → Except String String := fun _ => Except.error "completion down"

/-- An options object with nothing set (all defaults apply). -/
def optsNone : RetrieveOptions := { limit := none, threshold := none }

/-- A generate-options object with nothing set (all defaults apply). -/
def genOptsNone : GenerateOptions :=
  { limit := none, threshold := none, includeContext := none }

/-- A concrete six-element batch (two sub-batches of five and one). -/
def texts6 : List String := ["a", "b", "c", "d", "e", "f"]

/-- A tenant currently in `crawling` state. -/
def crawlingSite : Website :=
  { id := "w1", domain := "http://example.com", name := "Example",
    api_key := "key1", crawl_status := CrawlStatus.crawling, is_active := true }

/-- A tenant in `pending` state. -/
def siteA : Website :=
  { id := "w2", domain := "http://example.com", name := "Example",
    api_key := "key2", crawl_status := CrawlStatus.pending, is_active := true }

/-- A text splitter that returns its whole input as one chunk. -/
def splitWhole : String → List String := fun s => [s]

/-- A page whose cleaned text is exactly 100 characters long. -/
def page100 : Page :=
  { title := "t", text := String.mk (List.replicate 100 'a'), links := [] }

/-- A page whose cleaned text is 101 characters long. -/
def page101 : Page :=
  { title := "t", text := String.mk (List.replicate 101 'a'), links := [] }

/-- A crawl environment where every navigation fails and no URL parses. -/
def envNone : CrawlEnv :=
  { web := fun _ => none, splitText := splitWhole, hostOf := fun _ => none }

/-- The initial crawler state (fresh `visitedUrls`/`errors`/docs). -/
def emptyCrawlState : CrawlerState := { visitedUrls := [], errors := [], docs := [] }

/-- Options with an empty exclude list and everything else defaulted. -/
def opts10 : CrawlOptions :=
  { maxPages := none, maxDepth := none, respectRobotsTxt := none,
    delayBetweenRequests := none, excludePatterns := some [], includePatterns := none }

/-- A tenant whose domain is `http://h`. -/
def website10 : Website :=
  { id := "w10", domain := "http://h", name := "H",
    api_key := "k10", crawl_status := CrawlStatus.pending, is_active := true }

/-- A page on `http://h` carrying twelve same-host links. -/
def pg12 : Page :=
  { title := "t", text := "short",
    links := ["http://h/1", "http://h/2", "http://h/3", "http://h/4",
              "http://h/5", "http://h/6", "http://h/7", "http://h/8",
              "http://h/9", "http://h/10", "http://h/11", "http://h/12"] }

/-- A crawl environment serving `pg12` at the root of `http://h`, where
every URL parses to host `h`. -/
def env10 : CrawlEnv :=
  { web := fun u => if u = "http://h" then some pg12 else none,
    splitText := splitWhole,
    hostOf := fun _ => some "h" }

/-- A completion endpoint that always answers. -/
def geminiOk : String → Except String String := fun _ => Except.ok "Halo!"

/-- Membership in an insertion step comes from the new element or the
original list. -/
theorem mem_insertByDist (key : Document → ℚ) (d x : Document) :
    ∀ l, x ∈ insertByDist key d l → x = d ∨ x ∈ l := by
  intro l
  induction l with
  | nil =>
    intro h
    simp only [insertByDist, List.mem_singleton] at h
    exact Or.inl h
  | cons e es ih =>
    intro h
    simp only [insertByDist] at h
    split at h
    · rcases List.mem_cons.mp h with h | h
      · exact Or.inl h
      · exact Or.inr h
    · rcases List.mem_cons.mp h with h | h
      · exact Or.inr (List.mem_cons.mpr (Or.inl h))
      · rcases ih h with h | h
        · exact Or.inl h
        · exact Or.inr (List.mem_cons.mpr (Or.inr h))

/-- Sorting by distance does not invent rows. -/
theorem mem_sortByDist (key : Document → ℚ) (x : Document) :
    ∀ l, x ∈ sortByDist key l → x ∈ l := by
  intro l
  induction l with
  | nil => intro h; simp [sortByDist] at h
  | cons d ds ih =>
    intro h
    simp only [sortByDist] at h
    rcases mem_insertByDist key d x _ h with h | h
    · exact List.mem_cons.mpr (Or.inl h)
    · exact List.mem_cons.mpr (Or.inr (ih h))

/-- An insertion step grows the list by one. -/
theorem length_insertByDist (key : Document → ℚ) (d : Document) :
    ∀ l, (insertByDist key d l).length = l.length + 1 := by
  intro l
  induction l with
  | nil => simp [insertByDist]
  | cons e es ih =>
    simp only [insertByDist]
    split
    · simp
    · simp [ih]

/-- Sorting by distance preserves length. -/
theorem length_sortByDist (key : Document → ℚ) :
    ∀ l, (sortByDist key l).length = l.length := by
  intro l
  induction l with
  | nil => simp [sortByDist]
  | cons d ds ih => simp [sortByDist, length_insertByDist, ih]

/-- A pointwise-stronger filter keeps at most as many elements. -/
theorem length_filter_le_of_imp {α : Type} (p q : α → Bool)
    (h : ∀ a, p a = true → q a = true) :
    ∀ l : List α, (l.filter p).length ≤ (l.filter q).length := by
  intro l
  induction l with
  | nil => simp
  | cons a as ih =>
    cases hp : p a with
    | true =>
      rw [List.filter_cons_of_pos (by rw [hp]), List.filter_cons_of_pos (by rw [h a hp])]
      simp only [List.length_cons]
      exact Nat.succ_le_succ ih
    | false =>
      rw [List.filter_cons_of_neg (by simp [hp])]
      cases hq : q a with
      | true =>
        rw [List.filter_cons_of_pos (by rw [hq])]
        simp only [List.length_cons]
        exact ih.trans (Nat.le_succ _)
      | false =>
        rw [List.filter_cons_of_neg (by simp [hq])]
        exact ih

/-- C1: every document returned by `db.documents.similaritySearch` for
tenant `websiteId` has `website_id` equal to `websiteId`; a chunk of a
different tenant is never returned, whatever the query vector, limit,
threshold and distance operator. -/
theorem similaritySearch_tenant_isolation
    (dist : List ℚ → List ℚ → ℚ) (table : List Document)
    (websiteId : String) (embedding : List ℚ) (limit : Nat) (threshold : ℚ)
    (d : Document)
    (hd : d ∈ similaritySearch dist table websiteId embedding limit threshold) :
    d.website_id = websiteId := by
  unfold similaritySearch at hd
  have h1 := (List.take_sublist _ _).subset hd
  have h2 := mem_sortByDist _ _ _ h1
  have h3 := (List.mem_filter.mp h2).2
  simp only [Bool.and_eq_true, beq_iff_eq, decide_eq_true_eq] at h3
  exact h3.1

/-- Witness for C1 at a concrete one-row table. -/
theorem similaritySearch_tenant_isolation_witness :
    docT ∈ similaritySearch distZero [docT] "T" [] 5 (7/10) ∧
      docT.website_id = "T" :=
  ⟨by norm_num [similaritySearch, sortByDist, insertByDist, docT, distZero],
   similaritySearch_tenant_isolation distZero [docT] "T" [] 5 (7/10) docT
     (by norm_num [similaritySearch, sortByDist, insertByDist, docT, distZero])⟩

/-- The retrieved count, case-split on the embedding call: zero when the
provider throws or returns an empty vector, the similarity-search row
count otherwise. -/
theorem retrieve_totalSources_eq
    (embed : String → Except String (List ℚ)) (dist : List ℚ → List ℚ → ℚ)
    (table : List Document) (query websiteId : String) (opts : RetrieveOptions) :
    (retrieveRelevantDocuments embed dist table query websiteId opts).totalSources =
      (match embed query with
       | Except.error _ => 0
       | Except.ok values =>
         if values.length = 0 then 0
         else (similaritySearch dist table websiteId values
           (retrieveLimit opts) (retrieveThreshold opts)).length) := by
  unfold retrieveRelevantDocuments retrieveBody
  cases embed query with
  | error e => rfl
  | ok values =>
    by_cases hv : values.length = 0
    · simp [hv]
    · simp [hv]

/-- C4: retrieval with threshold 0.9 returns at most as many chunks as
retrieval with threshold 0.5, for the same provider, document table,
query, tenant and limit: raising the threshold only removes results. -/
theorem retrieveRelevantDocuments_threshold_monotone
    (embed : String → Except String (List ℚ)) (dist : List ℚ → List ℚ → ℚ)
    (table : List Document) (query websiteId : String) (limit : Option Nat) :
    (retrieveRelevantDocuments embed dist table query websiteId
        { limit := limit, threshold := some (9/10) }).totalSources ≤
    (retrieveRelevantDocuments embed dist table query websiteId
        { limit := limit, threshold := some (5/10) }).totalSources := by
  rw [retrieve_totalSources_eq, retrieve_totalSources_eq]
  cases embed query with
  | error e => exact Nat.le_refl 0
  | ok values =>
    by_cases hv : values.length = 0
    · simp [hv]
    · show (if values.length = 0 then 0
            else (similaritySearch dist table websiteId values
              (retrieveLimit { limit := limit, threshold := some (9/10) })
              (retrieveThreshold { limit := limit, threshold := some (9/10) })).length) ≤
           (if values.length = 0 then 0
            else (similaritySearch dist table websiteId values
              (retrieveLimit { limit := limit, threshold := some (5/10) })
              (retrieveThreshold { limit := limit, threshold := some (5/10) })).length)
      rw [if_neg hv, if_neg hv]
      unfold similaritySearch
      simp only [List.length_take, length_sortByDist]
      refine min_le_min (Nat.le_refl _) ?_
      apply length_filter_le_of_imp
      intro a ha
      simp only [Bool.and_eq_true, decide_eq_true_eq, retrieveThreshold,
        Option.getD_some] at ha ⊢
      exact ⟨ha.1, lt_trans (by norm_num) ha.2⟩

/-- C2: if the embedding provider throws on embed, or returns an empty
vector, `retrieveRelevantDocuments` returns the empty result (`documents
= []`, `totalSources = 0`).  The function's total return type is the
never-throws half of the claim: every failure is absorbed by the `catch`
branch of `retrieveBody`'s wrapper. -/
theorem retrieveRelevantDocuments_empty_on_embed_failure
    (embed : String → Except String (List ℚ)) (dist : List ℚ → List ℚ → ℚ)
    (table : List Document) (query websiteId : String) (opts : RetrieveOptions)
    (h : (∃ e, embed query = Except.error e) ∨ embed query = Except.ok []) :
    retrieveRelevantDocuments embed dist table query websiteId opts =
      { documents := [], totalSources := 0,
        similarity_threshold := retrieveThreshold opts } := by
  rcases h with ⟨e, he⟩ | he
  · unfold retrieveRelevantDocuments retrieveBody
    rw [he]
  · unfold retrieveRelevantDocuments retrieveBody
    rw [he]
    rfl

/-- Witness for C2: a provider that always throws yields the empty result. -/
theorem retrieveRelevantDocuments_empty_on_embed_failure_witness :
    ((∃ e, embedFail "q" = Except.error e) ∨ embedFail "q" = Except.ok []) ∧
      retrieveRelevantDocuments embedFail distZero [docT] "q" "T" optsNone =
        { documents := [], totalSources := 0,
          similarity_threshold := retrieveThreshold optsNone } :=
  ⟨Or.inl ⟨"provider down", rfl⟩,
   retrieveRelevantDocuments_empty_on_embed_failure embedFail distZero [docT]
     "q" "T" optsNone (Or.inl ⟨"provider down", rfl⟩)⟩

/-- C3: if the completion call throws on the prompt that
`generateRAGResponse` builds, the function returns the fixed fallback
answer together with an empty sources list and a zeroed-out context.
Retrieval cannot throw at all (`retrieveRelevantDocuments` is total,
catching its own failures and degrading to the empty context), and the
total return type of `generateRAGResponse` is the never-propagates half
of the claim. -/
theorem generateRAGResponse_fallback_on_completion_failure
    (embed : String → Except String (List ℚ)) (dist : List ℚ → List ℚ → ℚ)
    (chat : String → Except String String) (table : List Document)
    (query websiteId : String) (history : List HistoryMsg)
    (opts : GenerateOptions) (e : String)
    (h : chat (buildPrompt
        (buildContextText (retrieveRelevantDocuments embed dist table query
          websiteId (forwardedOptions opts)).documents)
        (buildHistoryText history) query) = Except.error e) :
    generateRAGResponse embed dist chat table query websiteId history opts =
      { answer := ragFallbackAnswer
        context := { documents := [], totalSources := 0, similarity_threshold := 0 }
        sources := [] } := by
  simp only [generateRAGResponse, generateBody]
  rw [h]

/-- Witness for C3: a completion provider that always throws yields the
fallback response. -/
theorem generateRAGResponse_fallback_on_completion_failure_witness :
    chatFail (buildPrompt
        (buildContextText (retrieveRelevantDocuments embedFail distZero [] "q"
          "T" (forwardedOptions genOptsNone)).documents)
        (buildHistoryText []) "q") = Except.error "completion down" ∧
      generateRAGResponse embedFail distZero chatFail [] "q" "T" [] genOptsNone =
        { answer := ragFallbackAnswer
          context := { documents := [], totalSources := 0, similarity_threshold := 0 }
          sources := [] } :=
  ⟨rfl,
   generateRAGResponse_fallback_on_completion_failure embedFail distZero chatFail
     [] "q" "T" [] genOptsNone "completion down" rfl⟩

/-- C7: batch embedding returns exactly one vector per input text,
position-aligned (it equals the plain map of `createEmbedding` over the
inputs, even though it proceeds in sub-batches of five), and a provider
failure on one text yields the empty vector at that position without
aborting the rest. -/
theorem createEmbeddingsBatch_pointwise (embed : String → Except String (List ℚ)) :
    (∀ texts, createEmbeddingsBatch embed texts = texts.map (createEmbedding embed)) ∧
    (∀ t e, embed t = Except.error e → createEmbedding embed t = []) := by
  constructor
  · have H : ∀ n (texts : List String), texts.length ≤ n →
        createEmbeddingsBatch embed texts = texts.map (createEmbedding embed) := by
      intro n
      induction n with
      | zero =>
        intro texts h
        have hnil : texts = [] := List.eq_nil_of_length_eq_zero (Nat.le_zero.mp h)
        subst hnil
        rw [createEmbeddingsBatch]
        rfl
      | succ n ih =>
        intro texts h
        match texts with
        | [] => rw [createEmbeddingsBatch]; rfl
        | t :: ts =>
          rw [createEmbeddingsBatch]
          have hsplit : (t :: ts).map (createEmbedding embed)
              = ((t :: ts).take 5).map (createEmbedding embed)
                ++ ((t :: ts).drop 5).map (createEmbedding embed) := by
            rw [← List.map_append, List.take_append_drop]
          rw [hsplit]
          congr 1
          apply ih
          simp only [List.length_drop, List.length_cons] at h ⊢
          omega
    exact fun texts => H texts.length texts (Nat.le_refl _)
  · intro t e he
    unfold createEmbedding
    rw [he]

/-- Witness for C7 at a concrete batch and an always-failing provider. -/
theorem createEmbeddingsBatch_pointwise_witness :
    createEmbeddingsBatch embedFail texts6 = texts6.map (createEmbedding embedFail) ∧
      embedFail "a" = Except.error "provider down" ∧
      createEmbedding embedFail "a" = [] :=
  ⟨(createEmbeddingsBatch_pointwise embedFail).1 texts6, rfl,
   (createEmbeddingsBatch_pointwise embedFail).2 "a" "provider down" rfl⟩

/-- C5: a `startCrawl` request for a tenant whose `crawl_status` is
`crawling` returns `success = false` with the descriptive message, leaves
the websites table untouched, and schedules no background crawl — so no
new `WebsiteCrawler` is constructed and the running crawl's `visitedUrls`
is never reset. -/
theorem startCrawl_rejects_already_crawling
    (websites : List Website) (websiteId : String) (now : Nat) (w : Website)
    (hfind : findByApiKey websites websiteId = some w)
    (hstatus : w.crawl_status = CrawlStatus.crawling) :
    startCrawl websites websiteId now =
      { result :=
          { success := false
            message := "Website is already being crawled"
            jobId := none }
        websites := websites
        scheduled := none } := by
  unfold startCrawl
  rw [hfind]
  simp only [if_pos hstatus]

/-- Witness for C5 at a concrete single-tenant table. -/
theorem startCrawl_rejects_already_crawling_witness :
    findByApiKey [crawlingSite] "key1" = some crawlingSite ∧
      crawlingSite.crawl_status = CrawlStatus.crawling ∧
      startCrawl [crawlingSite] "key1" 0 =
        { result :=
            { success := false
              message := "Website is already being crawled"
              jobId := none }
          websites := [crawlingSite]
          scheduled := none } :=
  ⟨rfl, rfl,
   startCrawl_rejects_already_crawling [crawlingSite] "key1" 0 crawlingSite rfl rfl⟩

/-- Any state invariant preserved by each step is preserved by a fold. -/
theorem foldl_preserves {α β : Type} (P : β → Prop) (f : β → α → β)
    (hf : ∀ s a, P s → P (f s a)) :
    ∀ (l : List α) (s : β), P s → P (l.foldl f s) := by
  intro l
  induction l with
  | nil => intro s hs; exact hs
  | cons a as ih => intro s hs; exact ih (f s a) (hf s a hs)

/-- C6: the crawler's visited-URL set never exceeds `maxPages`: from any
state within the cap (in particular the initial empty set), every
`crawlUrl` call — hence every intermediate state of the depth-first
traversal — stays within the cap, because a URL is added only after the
`visitedUrls.size >= maxPages` guard has passed. -/
theorem crawlUrl_visited_le_maxPages (env : CrawlEnv) (o : CrawlOptions)
    (website : Website) :
    ∀ (fuel : Nat) (url : String) (depth : Nat) (st : CrawlerState),
      st.visitedUrls.length ≤ maxPagesOf o →
      (crawlUrl env o website fuel url depth st).visitedUrls.length ≤ maxPagesOf o := by
  intro fuel
  induction fuel with
  | zero =>
    intro url depth st h
    exact h
  | succ fuel ih =>
    intro url depth st h
    rw [crawlUrl]
    split
    · exact h
    · split
      · exact h
      · rename_i hguard hshould
        have hlt : st.visitedUrls.length < maxPagesOf o := by
          rcases Nat.lt_or_ge st.visitedUrls.length (maxPagesOf o) with h' | h'
          · exact h'
          · exact absurd (Or.inr (Or.inl h')) hguard
        have hstep : (st.visitedUrls ++ [url]).length ≤ maxPagesOf o := by
          rw [List.length_append, List.length_singleton]
          omega
        split
        · exact hstep
        · split
          · exact foldl_preserves
              (fun s => s.visitedUrls.length ≤ maxPagesOf o)
              (fun s l => crawlUrl env o website fuel l (depth + 1) s)
              (fun s l hs => ih l (depth + 1) s hs) _ _ hstep
          · exact hstep

/-- Witness for C6 at a concrete crawl from the empty state. -/
theorem crawlUrl_visited_le_maxPages_witness :
    emptyCrawlState.visitedUrls.length ≤ maxPagesOf opts10 ∧
      (crawlUrl envNone opts10 website10 4 "http://h/x" 0
        emptyCrawlState).visitedUrls.length ≤ maxPagesOf opts10 :=
  ⟨by decide,
   crawlUrl_visited_le_maxPages envNone opts10 website10 4 "http://h/x" 0
     emptyCrawlState (by decide)⟩

/-- C8 counterexample: a fetched page whose cleaned text is exactly 100
characters long produces no pending documents, even with a splitter that
returns a non-empty chunk list — the source gate is the strict
`textContent.length > 100`, so "100 characters or longer is split into
chunks" fails at the boundary. -/
theorem pageDocs_at_exactly_100_counterexample :
    page100.text.length = 100 ∧ splitWhole page100.text ≠ [] ∧
      pageDocs splitWhole siteA "http://example.com/p" page100 = [] :=
  ⟨rfl, by decide, rfl⟩

/-- C8 (amended): during a crawl, a fetched page whose cleaned text is at
most 100 characters long (including exactly 100) is discarded — it
produces no pending documents, hence nothing is ever embedded for it —
and a page whose cleaned text is strictly longer than 100 characters
produces exactly one pending document per chunk of the splitter output,
carrying the chunk index and total chunk count. -/
theorem pageDocs_min_content_policy (split : String → List String)
    (website : Website) (url : String) (pg : Page) :
    (pg.text.length ≤ 100 → pageDocs split website url pg = []) ∧
    (pg.text.length > 100 →
      pageDocs split website url pg =
        (split pg.text).enum.map (fun p =>
          { website_id := website.id
            content := p.2
            url := url
            title := pg.title
            source_domain := website.domain
            chunk_index := p.1
            total_chunks := (split pg.text).length })) := by
  constructor
  · intro h
    unfold pageDocs
    rw [if_neg (by omega)]
  · intro h
    unfold pageDocs
    rw [if_pos h]

/-- Witness for C8's amended policy at both sides of the boundary. -/
theorem pageDocs_min_content_policy_witness :
    page100.text.length ≤ 100 ∧
      pageDocs splitWhole siteA "http://example.com/p" page100 = [] ∧
      page101.text.length > 100 ∧
      pageDocs splitWhole siteA "http://example.com/p" page101 =
        (splitWhole page101.text).enum.map (fun p =>
          { website_id := siteA.id
            content := p.2
            url := "http://example.com/p"
            title := page101.title
            source_domain := siteA.domain
            chunk_index := p.1
            total_chunks := (splitWhole page101.text).length }) :=
  ⟨by decide,
   (pageDocs_min_content_policy splitWhole siteA "http://example.com/p" page100).1
     (by decide),
   by decide,
   (pageDocs_min_content_policy splitWhole siteA "http://example.com/p" page101).2
     (by decide)⟩

/-- C10: when a page is fetched and its depth allows recursion, the
traversal from that page is the fold of `crawlUrl` over exactly the first
ten of the page's in-domain links (in page order) — a list of length at
most ten — so an in-domain link with ten or more in-domain links before
it on that page is never followed via that page, regardless of `maxPages`
and `maxDepth`. -/
theorem crawlUrl_follows_first_ten_internal_links
    (env : CrawlEnv) (o : CrawlOptions) (website : Website) (fuel : Nat)
    (url : String) (depth : Nat) (st : CrawlerState) (pg : Page)
    (hguard : ¬(depth > maxDepthOf o ∨ st.visitedUrls.length ≥ maxPagesOf o ∨
      url ∈ st.visitedUrls))
    (hshould : shouldCrawlUrl o url = true)
    (hweb : env.web url = some pg)
    (hdepth : depth < maxDepthOf o) :
    crawlUrl env o website (fuel + 1) url depth st =
      ((internalLinks env website pg).take 10).foldl
        (fun s l => crawlUrl env o website fuel l (depth + 1) s)
        { st with visitedUrls := st.visitedUrls ++ [url],
                  docs := st.docs ++ pageDocs env.splitText website url pg } ∧
    ((internalLinks env website pg).take 10).length ≤ 10 := by
  constructor
  · rw [crawlUrl]
    rw [if_neg hguard]
    rw [if_neg (by simp [hshould])]
    simp only [hweb]
    rw [if_pos hdepth]
  · rw [List.length_take]
    exact min_le_left _ _

/-- Witness for C10 at a page carrying twelve in-domain links. -/
theorem crawlUrl_follows_first_ten_internal_links_witness :
    (¬(0 > maxDepthOf opts10 ∨ emptyCrawlState.visitedUrls.length ≥ maxPagesOf opts10 ∨
        "http://h" ∈ emptyCrawlState.visitedUrls)) ∧
      shouldCrawlUrl opts10 "http://h" = true ∧
      env10.web "http://h" = some pg12 ∧
      0 < maxDepthOf opts10 ∧
      ((internalLinks env10 website10 pg12).take 10).length ≤ 10 :=
  ⟨by decide, rfl, rfl, by decide,
   (crawlUrl_follows_first_ten_internal_links env10 opts10 website10 3 "http://h" 0
     emptyCrawlState pg12 (by decide) rfl rfl (by decide)).2⟩

/-- C9 counterexample: a well-formed request with a non-empty message
gets a 200 response, but its `metadata` object carries neither a
`sources` field nor a `contextSources` field — the HTTP chat handler
answers with Gemini directly and reports only
`aiModel`/`productionMode`/`hasDatabase`/`version`. -/
theorem chatPOST_metadata_lacks_sources_counterexample :
    (chatPOST (some "k") geminiOk 0
        (some { message := some "hello", websiteId := some "w",
                sessionId := some "s" })).1 = 200 ∧
      ((chatPOST (some "k") geminiOk 0
          (some { message := some "hello", websiteId := some "w",
                  sessionId := some "s" })).2.getField "metadata").bind
        (fun m => m.getField "sources") = none ∧
      ((chatPOST (some "k") geminiOk 0
          (some { message := some "hello", websiteId := some "w",
                  sessionId := some "s" })).2.getField "metadata").bind
        (fun m => m.getField "contextSources") = none :=
  ⟨rfl, rfl, rfl⟩

/-- C9 (amended): for every chat `POST` request whose body contains a
non-empty message, the handler returns status 200 with a body holding the
content string, a session id string (the given one, or a generated
`prod-session-` id when absent or empty), the numeric timestamp, and a
metadata object whose fields are `aiModel`, `productionMode`,
`hasDatabase` and `version` — not `sources`/`contextSources`; a request
with a missing message is rejected with status 400. -/
theorem chatPOST_response_shape (apiKey : Option String)
    (callGemini : String → Except String String) (now : Nat)
    (ws sid : Option String) (msg : String) (hmsg : msg ≠ "") :
    chatPOST apiKey callGemini now
        (some { message := some msg, websiteId := ws, sessionId := sid }) =
      (200, JsonVal.obj
        [("type", JsonVal.str "response"),
         ("content", JsonVal.str (generateGeminiResponse apiKey callGemini msg)),
         ("sessionId", JsonVal.str
            (match sid with
             | some s => if s = "" then "prod-session-" ++ toString now else s
             | none => "prod-session-" ++ toString now)),
         ("timestamp", JsonVal.num now),
         ("metadata", chatMetadataObj)]) ∧
    chatPOST apiKey callGemini now
        (some { message := none, websiteId := ws, sessionId := sid }) =
      (400, JsonVal.obj [("error", JsonVal.str "Message is required")]) := by
  constructor
  · simp only [chatPOST]
    rw [if_neg hmsg]
  · rfl

/-- Witness for C9's amended response shape at a concrete request. -/
theorem chatPOST_response_shape_witness :
    ("hello" : String) ≠ "" ∧
      chatPOST (some "k") geminiOk 0
          (some { message := some "hello", websiteId := some "w",
                  sessionId := some "s" }) =
        (200, JsonVal.obj
          [("type", JsonVal.str "response"),
           ("content", JsonVal.str "Halo!"),
           ("sessionId", JsonVal.str "s"),
           ("timestamp", JsonVal.num 0),
           ("metadata", chatMetadataObj)]) :=
  ⟨by decide,
   (chatPOST_response_shape (some "k") geminiOk 0 (some "w") (some "s") "hello"
     (by decide)).1⟩
